import Mathlib

/-!
Shallow embedding of the SQL RAG backend (`src/backend/app.py`).

The program is a single Python file: a `get_answer` function wrapping a
vector-store similarity search and an LLM call in one try/except block,
and a `BaseHTTPRequestHandler` subclass (`RAGRequestHandler`) exposing
`POST /query` and CORS preflight `OPTIONS`.

External managed services (Pinecone similarity search, Groq LLM) and
Python built-ins external to the repository (`json.loads`, `int()` on a
header string, `self.rfile.read`) are modelled as oracle functions that
either return a value or fail with an exception message (`Except String`);
a returned `Except.error e` models a raised Python exception whose
`str(e)` is `e`.  JSON values are modelled by the inductive `JVal`
(JSON numbers restricted to integers; the float case adds nothing to any
property proved here).  Response bodies are modelled at the JSON level:
the handler writes `json.dumps(x).encode()`, which we model as the value
`x : JVal` itself (`Response.body = some x`); a handler that writes no
body has `body = none`.
-/

namespace SqlRag

/-- A JSON value as produced by `json.loads`.  Objects are association
lists; Python dicts built by `json.loads` keep the last occurrence of a
duplicated key, which `dictGetLast` below respects. -/
inductive JVal where
  | null : JVal
  | bool : Bool → JVal
  | num : Int → JVal
  | str : String → JVal
  | arr : List JVal → JVal
  | obj : List (String × JVal) → JVal

/-- Python `repr` of a JSON-derived value (string escaping elided: the
claims never inspect the rendering of non-string queries). -/
def pyRepr : JVal → String
  | .null => "None"
  | .bool true => "True"
  | .bool false => "False"
  | .num n => toString n
  | .str s => "\x27" ++ s ++ "\x27"
  | .arr xs => "[" ++ String.intercalate ", "
      (xs.attach.map (fun (x : { a : JVal // a ∈ xs }) => pyRepr x.1)) ++ "]"
  | .obj fs => "\x7b" ++
      String.intercalate ", "
        (fs.attach.map (fun (kv : { a : String × JVal // a ∈ fs }) =>
          "\x27" ++ kv.1.1 ++ "\x27: " ++ pyRepr kv.1.2)) ++ "\x7d"
decreasing_by
  · obtain ⟨a, hm⟩ := x
    have h := List.sizeOf_lt_of_mem hm
    simp at *
    omega
  · obtain ⟨⟨k, v⟩, hm⟩ := kv
    have h := List.sizeOf_lt_of_mem hm
    simp at *
    omega

/-- Python `str` of a JSON-derived value, as applied by the f-string
interpolation in the prompt template. -/
def pyStr : JVal → String
  | .str s => s
  | v => pyRepr v

/-- A retrieved document, as returned by `vectorstore.similarity_search`. -/
structure Doc where
  page_content : String
deriving DecidableEq, Repr

/-- The LLM response object returned by `llm.invoke`. -/
structure LLMResponse where
  content : String
deriving DecidableEq, Repr

/-- The module-level external handles of `app.py`: `vectorstore` and
`llm`, initialized once at startup.  `similarity_search` takes the raw
value passed as `query` (any JSON value reaches it when the request body
carries a non-string `query` field) and the integer `k`; `llm_invoke`
takes the rendered prompt.  An `Except.error e` models a raised
exception. -/
structure RagEnv where
  similarity_search : JVal → Nat → Except String (List Doc)
  llm_invoke : String → Except String LLMResponse

/-- The f-string prompt template of `get_answer`, verbatim from the
source (leading newline after the opening triple quote, trailing newline
before the closing one). -/
def mkPrompt (context : String) (query : String) : String :=
  "\nYou are a helpful SQL tutor. Use the given context and your SQL knowledge.\nExplain the answer clearly and give short examples if useful.\n\nContext:\n"
    ++ context
    ++ "\n\nQuestion:\n"
    ++ query
    ++ "\n\nAnswer:\n"

/-- `"\n\n".join([r.page_content for r in results])`. -/
def contextOf (results : List Doc) : String :=
  String.intercalate "\n\n" (results.map Doc.page_content)

/-- The step of `get_answer` after the prompt is built: `llm.invoke`
followed by `response.content.strip()`, still inside the try/except. -/
def llmStep (r : Except String LLMResponse) : String :=
  match r with
  | .ok response => response.content.trim
  | .error e => "⚠️ Error processing query: " ++ e

/-- `get_answer` from `app.py`: similarity search with `k=3`, context
join, prompt render, LLM call, strip; any exception is caught and turned
into the warning-prefixed string `f"⚠️ Error processing query: \x7bstr(e)\x7d"`. -/
def get_answer (env : RagEnv) (query : JVal) : String :=
  match env.similarity_search query 3 with
  | .error e => "⚠️ Error processing query: " ++ e
  | .ok results => llmStep (env.llm_invoke (mkPrompt (contextOf results) (pyStr query)))

/-- Some dependency call inside `get_answer` raises: either the
similarity search itself, or (when it succeeds) the LLM invocation on
the prompt built from its results. -/
def dependencyFails (env : RagEnv) (query : JVal) : Prop :=
  (∃ e, env.similarity_search query 3 = Except.error e) ∨
  (∃ results e, env.similarity_search query 3 = Except.ok results ∧
    env.llm_invoke (mkPrompt (contextOf results) (pyStr query)) = Except.error e)

/-! ## HTTP layer -/

/-- An incoming HTTP request as seen by `do_POST` / `do_OPTIONS`:
its path and the raw `Content-Length` header value, if present. -/
structure Request where
  path : String
  contentLengthHeader : Option String
deriving DecidableEq, Repr

/-- Oracles for the Python built-ins used while parsing the request
body, all external to the repository: `int()` applied to a header
string (raises `ValueError` on a non-numeric string), `self.rfile.read`
(may raise on an unreadable stream), and `json.loads` (raises on
malformed JSON). -/
structure HttpEnv where
  pyInt : String → Except String Int
  readBody : Int → Except String (List Nat)
  jsonLoads : List Nat → Except String JVal

/-- An emitted HTTP response: the status sent by `send_response`, the
headers sent by `send_header`, and the JSON value written to the body
(`none` when nothing is written). -/
structure Response where
  status : Nat
  headers : List (String × String)
  body : Option JVal

/-- `_set_headers(status, content_type)`: the status code and the four
headers it sends, in order. -/
def set_headers (status : Nat) (content_type : String) : Nat × List (String × String) :=
  (status,
   [("Content-Type", content_type),
    ("Access-Control-Allow-Origin", "*"),
    ("Access-Control-Allow-Methods", "GET, POST, OPTIONS"),
    ("Access-Control-Allow-Headers", "Content-Type")])

/-- `do_OPTIONS`: `_set_headers()` with the default arguments
(status 200, JSON content type) and no body write, for any request path. -/
def do_OPTIONS (_req : Request) : Response :=
  { status := (set_headers 200 "application/json").1
    headers := (set_headers 200 "application/json").2
    body := none }

/-- Python `dict.get(key)` lookup on an association list where a
duplicated key keeps its last occurrence, as `json.loads` does when
building the dict. -/
def dictGetLast (fields : List (String × JVal)) (key : String) : Option JVal :=
  fields.foldl (fun acc kv => if kv.1 = key then some kv.2 else acc) none

/-- `data.get("query", "")`: dictionary lookup with default when `data`
is a JSON object; on any other JSON value the attribute access raises
`AttributeError` (caught by the handler's try/except). -/
def pyGet (data : JVal) (key : String) (dflt : JVal) : Except String JVal :=
  match data with
  | .obj fields => Except.ok ((dictGetLast fields key).getD dflt)
  | _ => Except.error ("AttributeError: object has no attribute get")

/-- The body-parsing portion of the `do_POST` try block:
`content_length = int(self.headers.get("Content-Length", 0))` (the
default `0` is already an int, so `int()` is the identity on it),
`body = self.rfile.read(content_length)`, `data = json.loads(body)`. -/
def requestData (henv : HttpEnv) (req : Request) : Except String JVal := do
  let contentLength ← match req.contentLengthHeader with
    | none => Except.ok 0
    | some s => henv.pyInt s
  let body ← henv.readBody contentLength
  henv.jsonLoads body

/-- The whole try block of the `/query` branch of `do_POST`: parse the
body, extract `query` with default `""`, compute the answer (never
raises), send 200 with `\x7b"answer": answer\x7d`. -/
def queryHandler (env : RagEnv) (henv : HttpEnv) (req : Request) :
    Except String Response := do
  let data ← requestData henv req
  let query ← pyGet data "query" (JVal.str "")
  let answer := get_answer env query
  Except.ok
    { status := (set_headers 200 "application/json").1
      headers := (set_headers 200 "application/json").2
      body := some (JVal.obj [("answer", JVal.str answer)]) }

/-- `do_POST`: on path `/query`, run the try block, converting a raised
exception `e` into status 500 with body `\x7b"error": str(e)\x7d`; on any
other path, status 404 with body `\x7b"error": "Endpoint not found."\x7d`. -/
def do_POST (env : RagEnv) (henv : HttpEnv) (req : Request) : Response :=
  if req.path = "/query" then
    match queryHandler env henv req with
    | .ok r => r
    | .error e =>
      { status := (set_headers 500 "application/json").1
        headers := (set_headers 500 "application/json").2
        body := some (JVal.obj [("error", JVal.str e)]) }
  else
    { status := (set_headers 404 "application/json").1
      headers := (set_headers 404 "application/json").2
      body := some (JVal.obj [("error", JVal.str "Endpoint not found.")]) }

/-! ## Helper lemmas -/

/-- Shape of a successful run of the `/query` try block: parsing
succeeded and the `query` extraction succeeded, so `do_POST` sends 200
with the answer object. -/
theorem do_POST_query_ok (env : RagEnv) (henv : HttpEnv) (req : Request)
    (data qv : JVal)
    (hpath : req.path = "/query")
    (hdata : requestData henv req = Except.ok data)
    (hq : pyGet data "query" (JVal.str "") = Except.ok qv) :
    do_POST env henv req =
      { status := 200
        headers := (set_headers 200 "application/json").2
        body := some (JVal.obj [("answer", JVal.str (get_answer env qv))]) } := by
  unfold do_POST queryHandler
  rw [hpath]
  simp only [hdata, hq, Except.bind, bind]
  simp [set_headers]

/-- When the similarity search succeeds, `get_answer` proceeds to the
LLM step on the prompt rendered from exactly those results. -/
theorem get_answer_ok_step (env : RagEnv) (query : JVal) (results : List Doc)
    (hok : env.similarity_search query 3 = Except.ok results) :
    get_answer env query =
      llmStep (env.llm_invoke (mkPrompt (contextOf results) (pyStr query))) := by
  unfold get_answer
  rw [hok]

/-- When a dependency call fails, `get_answer` returns the
warning-prefixed message of the raised exception. -/
theorem get_answer_fail (env : RagEnv) (query : JVal)
    (hfail : dependencyFails env query) :
    ∃ msg, get_answer env query = "⚠️ Error processing query: " ++ msg := by
  rcases hfail with ⟨e, he⟩ | ⟨results, e, hok, he⟩
  · exact ⟨e, by unfold get_answer; rw [he]⟩
  · exact ⟨e, by
      rw [get_answer_ok_step env query results hok]
      unfold llmStep
      rw [he]⟩

/-! ## Fixtures for witnesses -/

/-- A request to `/query` with no `Content-Length` header. -/
def reqQuery : Request := { path := "/query", contentLengthHeader := none }

/-- An `HttpEnv` whose `json.loads` yields the given JSON value. -/
def henvOf (v : JVal) : HttpEnv :=
  { pyInt := fun _ => Except.ok 0
    readBody := fun _ => Except.ok []
    jsonLoads := fun _ => Except.ok v }

/-- A request body `\x7b"query": "JOIN"\x7d`. -/
def bodyJoin : JVal := JVal.obj [("query", JVal.str "JOIN")]

/-- A `RagEnv` whose similarity search raises. -/
def envSearchFail : RagEnv :=
  { similarity_search := fun _ _ => Except.error "search down"
    llm_invoke := fun _ => Except.ok { content := "unused" } }

/-- A `RagEnv` whose calls all succeed. -/
def envHappy : RagEnv :=
  { similarity_search := fun _ _ => Except.ok [{ page_content := "JOIN syntax" }]
    llm_invoke := fun _ => Except.ok { content := " use INNER JOIN " } }

/-! ## Claims -/

/-- C1: whenever a dependency call inside `get_answer` (similarity
search or LLM invocation) raises, `get_answer` does not propagate the
exception but returns a string beginning with the warning marker, and
`POST /query` still responds 200 with that string as the `answer`
field, not 500. -/
theorem c1_dependency_errors_swallowed (env : RagEnv) (henv : HttpEnv)
    (req : Request) (data : JVal) (q : String)
    (hpath : req.path = "/query")
    (hdata : requestData henv req = Except.ok data)
    (hq : pyGet data "query" (JVal.str "") = Except.ok (JVal.str q))
    (hfail : dependencyFails env (JVal.str q)) :
    (∃ msg, get_answer env (JVal.str q) = "⚠️ Error processing query: " ++ msg) ∧
    (do_POST env henv req).status = 200 ∧
    (do_POST env henv req).body =
      some (JVal.obj [("answer", JVal.str (get_answer env (JVal.str q)))]) := by
  have hmain := do_POST_query_ok env henv req data (JVal.str q) hpath hdata hq
  exact ⟨get_answer_fail env (JVal.str q) hfail, by rw [hmain], by rw [hmain]⟩

/-- Witness for C1 at a concrete failing vector store. -/
theorem c1_dependency_errors_swallowed_witness :
    reqQuery.path = "/query" ∧
    requestData (henvOf bodyJoin) reqQuery = Except.ok bodyJoin ∧
    pyGet bodyJoin "query" (JVal.str "") = Except.ok (JVal.str "JOIN") ∧
    dependencyFails envSearchFail (JVal.str "JOIN") ∧
    ((∃ msg, get_answer envSearchFail (JVal.str "JOIN") =
        "⚠️ Error processing query: " ++ msg) ∧
     (do_POST envSearchFail (henvOf bodyJoin) reqQuery).status = 200 ∧
     (do_POST envSearchFail (henvOf bodyJoin) reqQuery).body =
       some (JVal.obj [("answer",
         JVal.str (get_answer envSearchFail (JVal.str "JOIN")))])) :=
  ⟨rfl, rfl, rfl, Or.inl ⟨"search down", rfl⟩,
   c1_dependency_errors_swallowed envSearchFail (henvOf bodyJoin) reqQuery
     bodyJoin "JOIN" rfl rfl rfl (Or.inl ⟨"search down", rfl⟩)⟩

/-- C2: for every non-empty `query` string in a well-formed JSON object
body, `POST /query` responds 200 with a JSON object containing a
string-valued `answer` field. -/
theorem c2_nonempty_query_200 (env : RagEnv) (henv : HttpEnv)
    (req : Request) (fields : List (String × JVal)) (q : String)
    (hpath : req.path = "/query")
    (hdata : requestData henv req = Except.ok (JVal.obj fields))
    (hq : dictGetLast fields "query" = some (JVal.str q))
    (_hne : q ≠ "") :
    (do_POST env henv req).status = 200 ∧
    ∃ s : String, (do_POST env henv req).body =
      some (JVal.obj [("answer", JVal.str s)]) := by
  have hget : pyGet (JVal.obj fields) "query" (JVal.str "") =
      Except.ok (JVal.str q) := by
    simp only [pyGet, hq, Option.getD]
  have hmain := do_POST_query_ok env henv req (JVal.obj fields) (JVal.str q)
    hpath hdata hget
  rw [hmain]
  exact ⟨rfl, get_answer env (JVal.str q), rfl⟩

/-- Witness for C2 at a concrete happy-path environment. -/
theorem c2_nonempty_query_200_witness :
    reqQuery.path = "/query" ∧
    requestData (henvOf bodyJoin) reqQuery =
      Except.ok (JVal.obj [("query", JVal.str "JOIN")]) ∧
    dictGetLast [("query", JVal.str "JOIN")] "query" =
      some (JVal.str "JOIN") ∧
    "JOIN" ≠ "" ∧
    ((do_POST envHappy (henvOf bodyJoin) reqQuery).status = 200 ∧
     ∃ s : String, (do_POST envHappy (henvOf bodyJoin) reqQuery).body =
       some (JVal.obj [("answer", JVal.str s)])) :=
  ⟨rfl, rfl, rfl, by decide,
   c2_nonempty_query_200 envHappy (henvOf bodyJoin) reqQuery
     [("query", JVal.str "JOIN")] "JOIN" rfl rfl rfl (by decide)⟩

/-- C3: a well-formed JSON object body with no `query` field gets the
empty string substituted and passed straight to retrieval and
generation, with a 200 response; the same holds when `query` is
explicitly the empty string. -/
theorem c3_absent_query_defaults_empty (env : RagEnv) (henv : HttpEnv)
    (req : Request) (fields : List (String × JVal))
    (hpath : req.path = "/query")
    (hdata : requestData henv req = Except.ok (JVal.obj fields)) :
    (dictGetLast fields "query" = none →
      (do_POST env henv req).status = 200 ∧
      (do_POST env henv req).body =
        some (JVal.obj [("answer", JVal.str (get_answer env (JVal.str "")))])) ∧
    (dictGetLast fields "query" = some (JVal.str "") →
      (do_POST env henv req).status = 200 ∧
      (do_POST env henv req).body =
        some (JVal.obj [("answer", JVal.str (get_answer env (JVal.str "")))])) := by
  constructor <;> intro hq
  · have hget : pyGet (JVal.obj fields) "query" (JVal.str "") =
        Except.ok (JVal.str "") := by
      simp only [pyGet, hq, Option.getD]
    have hmain := do_POST_query_ok env henv req (JVal.obj fields)
      (JVal.str "") hpath hdata hget
    rw [hmain]
    exact ⟨rfl, rfl⟩
  · have hget : pyGet (JVal.obj fields) "query" (JVal.str "") =
        Except.ok (JVal.str "") := by
      simp only [pyGet, hq, Option.getD]
    have hmain := do_POST_query_ok env henv req (JVal.obj fields)
      (JVal.str "") hpath hdata hget
    rw [hmain]
    exact ⟨rfl, rfl⟩

/-- Witness for C3 at a concrete body with no `query` key. -/
theorem c3_absent_query_defaults_empty_witness :
    reqQuery.path = "/query" ∧
    requestData (henvOf (JVal.obj [])) reqQuery = Except.ok (JVal.obj []) ∧
    dictGetLast ([] : List (String × JVal)) "query" = none ∧
    ((do_POST envHappy (henvOf (JVal.obj [])) reqQuery).status = 200 ∧
     (do_POST envHappy (henvOf (JVal.obj [])) reqQuery).body =
       some (JVal.obj [("answer",
         JVal.str (get_answer envHappy (JVal.str "")))])) :=
  ⟨rfl, rfl, rfl,
   (c3_absent_query_defaults_empty envHappy (henvOf (JVal.obj []))
     reqQuery [] rfl rfl).1 rfl⟩

/-- C4: every request to a path other than `/query` gets 404 with a
JSON body whose `error` field is `"Endpoint not found."`. -/
theorem c4_other_path_404 (env : RagEnv) (henv : HttpEnv) (req : Request)
    (hpath : req.path ≠ "/query") :
    (do_POST env henv req).status = 404 ∧
    (do_POST env henv req).body =
      some (JVal.obj [("error", JVal.str "Endpoint not found.")]) := by
  unfold do_POST
  rw [if_neg hpath]
  exact ⟨rfl, rfl⟩

/-- Witness for C4 at a concrete foreign path. -/
theorem c4_other_path_404_witness :
    ({ path := "/other", contentLengthHeader := none } : Request).path ≠ "/query" ∧
    ((do_POST envHappy (henvOf bodyJoin)
        { path := "/other", contentLengthHeader := none }).status = 404 ∧
     (do_POST envHappy (henvOf bodyJoin)
        { path := "/other", contentLengthHeader := none }).body =
       some (JVal.obj [("error", JVal.str "Endpoint not found.")])) :=
  ⟨by decide,
   c4_other_path_404 envHappy (henvOf bodyJoin)
     { path := "/other", contentLengthHeader := none } (by decide)⟩

/-- C5: every `OPTIONS` request, to any path, gets HTTP 200, an empty
body, and the three CORS headers: `Access-Control-Allow-Origin: *`,
`Access-Control-Allow-Methods` and `Access-Control-Allow-Headers`. -/
theorem c5_options_cors (req : Request) :
    (do_OPTIONS req).status = 200 ∧
    (do_OPTIONS req).body = none ∧
    ("Access-Control-Allow-Origin", "*") ∈ (do_OPTIONS req).headers ∧
    (∃ v, ("Access-Control-Allow-Methods", v) ∈ (do_OPTIONS req).headers) ∧
    (∃ v, ("Access-Control-Allow-Headers", v) ∈ (do_OPTIONS req).headers) := by
  refine ⟨rfl, rfl, ?_, ⟨"GET, POST, OPTIONS", ?_⟩, ⟨"Content-Type", ?_⟩⟩ <;>
    simp [do_OPTIONS, set_headers]

/-- Modelled from the spec: the prompt the spec and claim describe —
the helpful-SQL-tutor system instruction, then the retrieved chunk
texts joined with blank-line (double newline) separators as the context
block, then the literal query text, then the `Answer:` cue. -/
def specPromptOf (chunks : List String) (query : String) : String :=
  "\nYou are a helpful SQL tutor. Use the given context and your SQL knowledge.\nExplain the answer clearly and give short examples if useful."
    ++ "\n\nContext:\n"
    ++ String.intercalate "\n\n" chunks
    ++ "\n\nQuestion:\n"
    ++ query
    ++ "\n\nAnswer:\n"

/-- C6: `get_answer` consults the vector store only through the single
`similarity_search` call at `k = 3` (two environments agreeing there
and on the LLM are indistinguishable to it), and when that call returns
no results the empty context string is passed onward to the LLM step
rather than being treated as an error. -/
theorem c6_top3_and_empty_context (env env2 : RagEnv) (q : JVal)
    (hsame : env.similarity_search q 3 = env2.similarity_search q 3)
    (hllm : env.llm_invoke = env2.llm_invoke) :
    get_answer env q = get_answer env2 q ∧
    (env.similarity_search q 3 = Except.ok [] →
      get_answer env q = llmStep (env.llm_invoke (mkPrompt "" (pyStr q)))) := by
  constructor
  · unfold get_answer llmStep
    rw [hsame, hllm]
  · intro h
    rw [get_answer_ok_step env q [] h]
    rfl

/-- A `RagEnv` whose similarity search finds nothing. -/
def envNoHits : RagEnv :=
  { similarity_search := fun _ _ => Except.ok []
    llm_invoke := fun _ => Except.ok { content := "general knowledge answer" } }

/-- A `RagEnv` agreeing with `envHappy` at `k = 3` but differing at
every other `k`. -/
def envHappyOff3 : RagEnv :=
  { similarity_search := fun q k =>
      if k = 3 then envHappy.similarity_search q k else Except.error "other k"
    llm_invoke := envHappy.llm_invoke }

/-- Witness for C6 at concrete environments. -/
theorem c6_top3_and_empty_context_witness :
    envHappy.similarity_search (JVal.str "JOIN") 3 =
      envHappyOff3.similarity_search (JVal.str "JOIN") 3 ∧
    envHappy.llm_invoke = envHappyOff3.llm_invoke ∧
    get_answer envHappy (JVal.str "JOIN") =
      get_answer envHappyOff3 (JVal.str "JOIN") ∧
    envNoHits.similarity_search (JVal.str "JOIN") 3 = Except.ok [] ∧
    get_answer envNoHits (JVal.str "JOIN") =
      llmStep (envNoHits.llm_invoke (mkPrompt "" (pyStr (JVal.str "JOIN")))) :=
  ⟨rfl, rfl,
   (c6_top3_and_empty_context envHappy envHappyOff3 (JVal.str "JOIN") rfl rfl).1,
   rfl,
   (c6_top3_and_empty_context envNoHits envNoHits (JVal.str "JOIN") rfl rfl).2 rfl⟩

/-- C7: for every query string and retrieved chunk sequence, the prompt
sent to the LLM is exactly the fixed template the spec describes:
system instruction, then the chunk texts joined with double newlines,
then the literal query, then the `Answer:` cue (`specPromptOf`). -/
theorem c7_prompt_template (env : RagEnv) (q : String) (results : List Doc)
    (hok : env.similarity_search (JVal.str q) 3 = Except.ok results) :
    get_answer env (JVal.str q) =
      llmStep (env.llm_invoke (specPromptOf (results.map Doc.page_content) q)) := by
  rw [get_answer_ok_step env (JVal.str q) results hok]
  rfl

/-- Witness for C7 at a concrete retrieval result. -/
theorem c7_prompt_template_witness :
    envHappy.similarity_search (JVal.str "JOIN") 3 =
      Except.ok [{ page_content := "JOIN syntax" }] ∧
    get_answer envHappy (JVal.str "JOIN") =
      llmStep (envHappy.llm_invoke (specPromptOf ["JOIN syntax"] "JOIN")) :=
  ⟨rfl,
   c7_prompt_template envHappy "JOIN" [{ page_content := "JOIN syntax" }] rfl⟩

/-- C8: when body parsing raises (malformed JSON, unreadable body, or a
non-numeric `Content-Length`), `POST /query` responds 500 with a JSON
body whose `error` field holds the exception message. -/
theorem c8_parse_error_500 (env : RagEnv) (henv : HttpEnv) (req : Request)
    (e : String)
    (hpath : req.path = "/query")
    (herr : requestData henv req = Except.error e) :
    (do_POST env henv req).status = 500 ∧
    (do_POST env henv req).body =
      some (JVal.obj [("error", JVal.str e)]) := by
  unfold do_POST queryHandler
  rw [hpath]
  simp [herr, Except.bind, bind, set_headers]

/-- An `HttpEnv` whose `json.loads` raises on every body. -/
def henvBadJson : HttpEnv :=
  { pyInt := fun _ => Except.ok 0
    readBody := fun _ => Except.ok []
    jsonLoads := fun _ => Except.error "Expecting value: line 1 column 1 (char 0)" }

/-- Witness for C8 at a concrete malformed body. -/
theorem c8_parse_error_500_witness :
    reqQuery.path = "/query" ∧
    requestData henvBadJson reqQuery =
      Except.error "Expecting value: line 1 column 1 (char 0)" ∧
    ((do_POST envHappy henvBadJson reqQuery).status = 500 ∧
     (do_POST envHappy henvBadJson reqQuery).body =
       some (JVal.obj [("error",
         JVal.str "Expecting value: line 1 column 1 (char 0)")])) :=
  ⟨rfl, rfl,
   c8_parse_error_500 envHappy henvBadJson reqQuery
     "Expecting value: line 1 column 1 (char 0)" rfl rfl⟩

/-- Every successful result of the `/query` try block carries the
headers sent by `_set_headers(200)`. -/
theorem queryHandler_ok_headers (env : RagEnv) (henv : HttpEnv)
    (req : Request) (r : Response)
    (h : queryHandler env henv req = Except.ok r) :
    r.headers = (set_headers 200 "application/json").2 := by
  unfold queryHandler at h
  cases hd : requestData henv req with
  | error e =>
    rw [hd] at h
    simp [Except.bind, bind] at h
  | ok data =>
    rw [hd] at h
    simp only [Except.bind, bind] at h
    cases hq : pyGet data "query" (JVal.str "") with
    | error e =>
      rw [hq] at h
      simp at h
    | ok qv =>
      rw [hq] at h
      simp only [Except.ok.injEq] at h
      rw [← h]

/-- C9: every response path of the handler — the 200 answer, the 404
not-found, the 500 parse-error, and the `OPTIONS` response — carries
the permissive CORS headers, because each goes through `_set_headers`;
the spec promises them only for `OPTIONS` preflight. -/
theorem c9_cors_on_every_response (env : RagEnv) (henv : HttpEnv)
    (req : Request) :
    (("Access-Control-Allow-Origin", "*") ∈ (do_POST env henv req).headers ∧
     ("Access-Control-Allow-Methods", "GET, POST, OPTIONS") ∈ (do_POST env henv req).headers ∧
     ("Access-Control-Allow-Headers", "Content-Type") ∈ (do_POST env henv req).headers) ∧
    (("Access-Control-Allow-Origin", "*") ∈ (do_OPTIONS req).headers ∧
     ("Access-Control-Allow-Methods", "GET, POST, OPTIONS") ∈ (do_OPTIONS req).headers ∧
     ("Access-Control-Allow-Headers", "Content-Type") ∈ (do_OPTIONS req).headers) := by
  constructor
  · unfold do_POST
    by_cases hp : req.path = "/query"
    · rw [if_pos hp]
      cases hqh : queryHandler env henv req with
      | ok r =>
        have hh := queryHandler_ok_headers env henv req r hqh
        simp [hh, set_headers]
      | error e =>
        simp [set_headers]
    · rw [if_neg hp]
      simp [set_headers]
  · simp [do_OPTIONS, set_headers]

/-- C10: a well-formed JSON object body whose `query` field holds a
non-string JSON value is passed unchecked into `get_answer`; the
endpoint still responds 200 with a string `answer` field, and if the
value provokes a dependency exception the answer is the
warning-prefixed string — never a validation error or 500. -/
theorem c10_nonstring_query_200 (env : RagEnv) (henv : HttpEnv)
    (req : Request) (fields : List (String × JVal)) (v : JVal)
    (hpath : req.path = "/query")
    (hdata : requestData henv req = Except.ok (JVal.obj fields))
    (hq : dictGetLast fields "query" = some v) :
    (do_POST env henv req).status = 200 ∧
    (do_POST env henv req).body =
      some (JVal.obj [("answer", JVal.str (get_answer env v))]) ∧
    (dependencyFails env v →
      ∃ msg, get_answer env v = "⚠️ Error processing query: " ++ msg) := by
  have hget : pyGet (JVal.obj fields) "query" (JVal.str "") = Except.ok v := by
    simp only [pyGet, hq, Option.getD]
  have hmain := do_POST_query_ok env henv req (JVal.obj fields) v hpath hdata hget
  exact ⟨by rw [hmain], by rw [hmain], fun hf => get_answer_fail env v hf⟩

/-- A request body `\x7b"query": 7\x7d` with a numeric `query`. -/
def bodyNum : JVal := JVal.obj [("query", JVal.num 7)]

/-- Witness for C10 at a concrete numeric `query` and a failing store. -/
theorem c10_nonstring_query_200_witness :
    reqQuery.path = "/query" ∧
    requestData (henvOf bodyNum) reqQuery = Except.ok bodyNum ∧
    dictGetLast [("query", JVal.num 7)] "query" = some (JVal.num 7) ∧
    ((do_POST envSearchFail (henvOf bodyNum) reqQuery).status = 200 ∧
     (do_POST envSearchFail (henvOf bodyNum) reqQuery).body =
       some (JVal.obj [("answer",
         JVal.str (get_answer envSearchFail (JVal.num 7)))]) ∧
     (dependencyFails envSearchFail (JVal.num 7) →
       ∃ msg, get_answer envSearchFail (JVal.num 7) =
         "⚠️ Error processing query: " ++ msg)) :=
  ⟨rfl, rfl, rfl,
   c10_nonstring_query_200 envSearchFail (henvOf bodyNum) reqQuery
     [("query", JVal.num 7)] (JVal.num 7) rfl rfl rfl⟩

end SqlRag
